import Mathlib

/-!
Shallow embedding of the Automated-Trash-Bin-Carrier repository: two
near-identical Arduino sketches for a line-following robot with obstacle
overtake and a lap-stage machine.

  * `Part000`    embeds `src/unnamed/part_000`
  * `GarageDoor` embeds `src/garage_door.ino`

Modelling conventions:
  * The two process-wide variables `lap_stage` and `stage_start_time` form
    the state `CarState`; every other variable in the sketches is local to
    one loop tick.
  * A loop tick's sensor reads and `millis()` samples are inputs
    (`TickInput`): `val_L`, `val_M`, `val_R` are the three `analogRead`
    results, `duration` is the `pulseIn` echo time, `now` is the `millis()`
    value sampled for the safety check, and `now2` the `millis()` value
    sampled when `stage_start_time` is reassigned (the code calls `millis()`
    a second time there, after the blocking U-turn delays).
  * Actuation is recorded as the list of primitive motor-driver writes and
    delays the tick performs, in order (`MotorOp`).
  * `unsigned long` subtraction `millis() - stage_start_time` is modelled
    by `ulongSub`, subtraction modulo 2^32.
  * `getDistance`'s `duration * 0.034 / 2` (a `double` product truncated to
    `int`) is modelled as the exact rational value truncated toward zero,
    `(duration * 34) / 2000` in natural-number division; no claim examined
    here sits close enough to a truncation boundary for the double's
    rounding error (well below 1e-10 on this range) to change the result.
-/

/-- The two process-wide globals of the sketches: `lap_stage`
(0 = OUTBOUND, 1 = RETURNING, 2 = FINISHED) and `stage_start_time`. -/
structure CarState where
  lap_stage : Nat
  stage_start_time : Nat
deriving DecidableEq

/-- One primitive actuation step: a direction-pin write, a PWM write, or a
blocking delay, exactly the operations the sketches' motor helpers issue.
`AIN1`/`PWMA` drive the right wheel, `BIN1`/`PWMB` the left wheel. -/
inductive MotorOp where
  | digitalWriteAIN1 (v : Bool)
  | digitalWriteBIN1 (v : Bool)
  | analogWritePWMA (v : Int)
  | analogWritePWMB (v : Int)
  | delayMs (ms : Nat)
deriving DecidableEq

/-- The per-tick inputs of the control loop: the three line-sensor
`analogRead` values, the ultrasonic `pulseIn` duration, and the two
`millis()` samples a tick can take. -/
structure TickInput where
  val_L : Int
  val_M : Int
  val_R : Int
  duration : Nat
  now : Nat
  now2 : Nat
deriving DecidableEq

/-- Wraparound `unsigned long` subtraction: `a - b` on 32-bit values: wraparound
modulo 2^32. -/
def ulongSub (a b : Nat) : Nat :=
  (a + 4294967296 - b % 4294967296) % 4294967296

namespace Part000

/-- Source constant `const int THRESHOLD_LOW = 200;` -/
def THRESHOLD_LOW : Int := 200

/-- Source constant `const int THRESHOLD_HIGH = 1100;` -/
def THRESHOLD_HIGH : Int := 1100

/-- Source constant `const int SPEED_LINE_FWD = 75;` -/
def SPEED_LINE_FWD : Int := 75

/-- Source constant `const int SPEED_LINE_TURN = 120;` -/
def SPEED_LINE_TURN : Int := 120

/-- Source constant `const int OBSTACLE_LIMIT = 10;` -/
def OBSTACLE_LIMIT : Int := 10

/-- Source constant `const int SPEED_MANEUVER = 150;` -/
def SPEED_MANEUVER : Int := 150

/-- Source constant `const int TURN_TIME_90 = 370;` -/
def TURN_TIME_90 : Nat := 370

/-- Source constant `const int TURN_TIME_180 = 790;` -/
def TURN_TIME_180 : Nat := 790

/-- Source constant `const int DRIVE_SIDE_TIME = 700;` -/
def DRIVE_SIDE_TIME : Nat := 700

/-- Source constant `const int DRIVE_PASS_TIME = 1200;` -/
def DRIVE_PASS_TIME : Nat := 1200

/-- Source constant `const unsigned long MIN_LAP_TIME = 19500;` -/
def MIN_LAP_TIME : Nat := 19500

/-- Source function `bool isBlack(int value) { return (value > THRESHOLD_LOW && value < THRESHOLD_HIGH); }` -/
def isBlack (value : Int) : Bool :=
  decide (value > THRESHOLD_LOW) && decide (value < THRESHOLD_HIGH)

/-- Source function `int getDistance()`: on `pulseIn` timeout (`duration == 0`) return the
sentinel 200, else `duration * 0.034 / 2` truncated to `int` (modelled as
exact rational truncation, see file header). -/
def getDistance (duration : Nat) : Int :=
  if duration = 0 then 200 else ((duration * 34) / 2000 : Nat)

/-- Source function `void moveCar(int speedLeft, int speedRight)`: both direction pins
forward, PWMA gets the right speed, PWMB the left speed. -/
def moveCar (speedLeft speedRight : Int) : List MotorOp :=
  [.digitalWriteAIN1 true, .analogWritePWMA speedRight,
   .digitalWriteBIN1 true, .analogWritePWMB speedLeft]

/-- Source function `void turnRight(int speed)`: right wheel reverse, left wheel forward. -/
def turnRight (speed : Int) : List MotorOp :=
  [.digitalWriteAIN1 false, .analogWritePWMA speed,
   .digitalWriteBIN1 true, .analogWritePWMB speed]

/-- Source function `void turnLeft(int speed)`: right wheel forward, left wheel reverse. -/
def turnLeft (speed : Int) : List MotorOp :=
  [.digitalWriteAIN1 true, .analogWritePWMA speed,
   .digitalWriteBIN1 false, .analogWritePWMB speed]

/-- Source function `void stopCar()`: zero both PWM magnitudes, directions untouched. -/
def stopCar : List MotorOp :=
  [.analogWritePWMA 0, .analogWritePWMB 0]

/-- Source function `void performOvertake()`: the fixed blocking box-overtake sequence. -/
def performOvertake : List MotorOp :=
  stopCar ++ [.delayMs 500] ++
  turnRight SPEED_MANEUVER ++ [.delayMs TURN_TIME_90] ++
  moveCar 80 80 ++ [.delayMs DRIVE_SIDE_TIME] ++
  turnLeft SPEED_MANEUVER ++ [.delayMs TURN_TIME_90] ++
  moveCar 80 80 ++ [.delayMs DRIVE_PASS_TIME] ++
  turnLeft SPEED_MANEUVER ++ [.delayMs TURN_TIME_90] ++
  moveCar 80 80 ++ [.delayMs DRIVE_SIDE_TIME] ++
  turnRight SPEED_MANEUVER ++ [.delayMs TURN_TIME_90] ++
  stopCar ++ [.delayMs 500]

/-- Source function `void performUturn()` (part_000 variant): stop, pause, spin 180 (right
wheel forward, left wheel reverse), stop, pause, then a blind forward creep
to clear the marker. -/
def performUturn : List MotorOp :=
  stopCar ++ [.delayMs 500] ++
  [.digitalWriteAIN1 true, .analogWritePWMA SPEED_MANEUVER,
   .digitalWriteBIN1 false, .analogWritePWMB SPEED_MANEUVER] ++
  [.delayMs TURN_TIME_180] ++
  stopCar ++ [.delayMs 500] ++
  moveCar SPEED_LINE_FWD SPEED_LINE_FWD ++ [.delayMs 300]

/-- The PRIORITY 1 body of `runLineFollower` (lines 113-137): on an
all-black pattern, check `millis() - stage_start_time > MIN_LAP_TIME`;
if so transition OUTBOUND to RETURNING (U-turn, timer reset) or RETURNING
to FINISHED (stop); otherwise drive straight through as noise. -/
def lapStageLogic (s : CarState) (i : TickInput) : CarState × List MotorOp :=
  if ulongSub i.now s.stage_start_time > MIN_LAP_TIME then
    if s.lap_stage = 0 then
      (⟨1, i.now2⟩, performUturn)
    else if s.lap_stage = 1 then
      (⟨2, s.stage_start_time⟩, stopCar)
    else
      (s, [])
  else
    (s, moveCar SPEED_LINE_FWD SPEED_LINE_FWD)

/-- Source function `void runLineFollower()`: the priority-ordered if/else-if chain over the
three classified sensor readings. -/
def runLineFollower (s : CarState) (i : TickInput) : CarState × List MotorOp :=
  if isBlack i.val_L && isBlack i.val_M && isBlack i.val_R then
    lapStageLogic s i
  else if isBlack i.val_M && !isBlack i.val_L && !isBlack i.val_R then
    (s, moveCar SPEED_LINE_FWD SPEED_LINE_FWD)
  else if isBlack i.val_R then
    (s, turnRight SPEED_LINE_TURN)
  else if isBlack i.val_L then
    (s, turnLeft SPEED_LINE_TURN)
  else if isBlack i.val_M then
    (s, moveCar SPEED_LINE_FWD SPEED_LINE_FWD)
  else
    (s, stopCar)

/-- Source function `void loop()`: short-circuit to `stopCar` when finished, else obstacle
check first (`distance > 0 && distance < OBSTACLE_LIMIT`), else line
follower. -/
def loop (s : CarState) (i : TickInput) : CarState × List MotorOp :=
  if s.lap_stage = 2 then
    (s, stopCar)
  else if getDistance i.duration > 0 && getDistance i.duration < OBSTACLE_LIMIT then
    (s, performOvertake)
  else
    runLineFollower s i

end Part000

namespace GarageDoor

/-- Source constant `const int THRESHOLD_LOW = 200;` -/
def THRESHOLD_LOW : Int := 200

/-- Source constant `const int THRESHOLD_HIGH = 1100;` -/
def THRESHOLD_HIGH : Int := 1100

/-- Source constant `const int SPEED_LINE_FWD = 80;` -/
def SPEED_LINE_FWD : Int := 80

/-- Source constant `const int SPEED_LINE_TURN = 120;` -/
def SPEED_LINE_TURN : Int := 120

/-- Source constant `const int OBSTACLE_LIMIT = 10;` -/
def OBSTACLE_LIMIT : Int := 10

/-- Source constant `const int SPEED_MANEUVER = 150;` -/
def SPEED_MANEUVER : Int := 150

/-- Source constant `const int TURN_TIME_90 = 365;` -/
def TURN_TIME_90 : Nat := 365

/-- Source constant `const int TURN_TIME_180 = 790;` -/
def TURN_TIME_180 : Nat := 790

/-- Source constant `const int DRIVE_SIDE_TIME = 600;` -/
def DRIVE_SIDE_TIME : Nat := 600

/-- Source constant `const int DRIVE_PASS_TIME = 1200;` -/
def DRIVE_PASS_TIME : Nat := 1200

/-- Source constant `const unsigned long MIN_LAP_TIME = 19500;` -/
def MIN_LAP_TIME : Nat := 19500

/-- Source function `bool isBlack(int value) { return (value > THRESHOLD_LOW && value < THRESHOLD_HIGH); }` -/
def isBlack (value : Int) : Bool :=
  decide (value > THRESHOLD_LOW) && decide (value < THRESHOLD_HIGH)

/-- Source function `int getDistance()`: identical to the part_000 variant. -/
def getDistance (duration : Nat) : Int :=
  if duration = 0 then 200 else ((duration * 34) / 2000 : Nat)

/-- Source function `void moveCar(int speedLeft, int speedRight)` -/
def moveCar (speedLeft speedRight : Int) : List MotorOp :=
  [.digitalWriteAIN1 true, .analogWritePWMA speedRight,
   .digitalWriteBIN1 true, .analogWritePWMB speedLeft]

/-- Source function `void turnRight(int speed)` -/
def turnRight (speed : Int) : List MotorOp :=
  [.digitalWriteAIN1 false, .analogWritePWMA speed,
   .digitalWriteBIN1 true, .analogWritePWMB speed]

/-- Source function `void turnLeft(int speed)` -/
def turnLeft (speed : Int) : List MotorOp :=
  [.digitalWriteAIN1 true, .analogWritePWMA speed,
   .digitalWriteBIN1 false, .analogWritePWMB speed]

/-- Source function `void stopCar()` -/
def stopCar : List MotorOp :=
  [.analogWritePWMA 0, .analogWritePWMB 0]

/-- Source function `void performOvertake()`: same shape as part_000 but with this
variant's timing constants. -/
def performOvertake : List MotorOp :=
  stopCar ++ [.delayMs 500] ++
  turnRight SPEED_MANEUVER ++ [.delayMs TURN_TIME_90] ++
  moveCar 80 80 ++ [.delayMs DRIVE_SIDE_TIME] ++
  turnLeft SPEED_MANEUVER ++ [.delayMs TURN_TIME_90] ++
  moveCar 80 80 ++ [.delayMs DRIVE_PASS_TIME] ++
  turnLeft SPEED_MANEUVER ++ [.delayMs TURN_TIME_90] ++
  moveCar 80 80 ++ [.delayMs DRIVE_SIDE_TIME] ++
  turnRight SPEED_MANEUVER ++ [.delayMs TURN_TIME_90] ++
  stopCar ++ [.delayMs 500]

/-- Source function `void performUturn()` (garage_door variant): stop, pause, spin 180,
stop; no trailing creep (the caller adds a 5 s dwell instead). -/
def performUturn : List MotorOp :=
  stopCar ++ [.delayMs 500] ++
  [.digitalWriteAIN1 true, .analogWritePWMA SPEED_MANEUVER,
   .digitalWriteBIN1 false, .analogWritePWMB SPEED_MANEUVER] ++
  [.delayMs TURN_TIME_180] ++
  stopCar

/-- The PRIORITY 1 body of `runLineLogic` (lines 113-146): after the U-turn
this variant stops, dwells 5000 ms, resets stage and timer, then creeps
forward 300 ms. -/
def lapStageLogic (s : CarState) (i : TickInput) : CarState × List MotorOp :=
  if ulongSub i.now s.stage_start_time > MIN_LAP_TIME then
    if s.lap_stage = 0 then
      (⟨1, i.now2⟩,
        performUturn ++ stopCar ++ [.delayMs 5000] ++
        moveCar SPEED_LINE_FWD SPEED_LINE_FWD ++ [.delayMs 300])
    else if s.lap_stage = 1 then
      (⟨2, s.stage_start_time⟩, stopCar)
    else
      (s, [])
  else
    (s, moveCar SPEED_LINE_FWD SPEED_LINE_FWD)

/-- Source function `void runLineLogic()`: the same priority chain as part_000's
`runLineFollower`. -/
def runLineLogic (s : CarState) (i : TickInput) : CarState × List MotorOp :=
  if isBlack i.val_L && isBlack i.val_M && isBlack i.val_R then
    lapStageLogic s i
  else if isBlack i.val_M && !isBlack i.val_L && !isBlack i.val_R then
    (s, moveCar SPEED_LINE_FWD SPEED_LINE_FWD)
  else if isBlack i.val_R then
    (s, turnRight SPEED_LINE_TURN)
  else if isBlack i.val_L then
    (s, turnLeft SPEED_LINE_TURN)
  else if isBlack i.val_M then
    (s, moveCar SPEED_LINE_FWD SPEED_LINE_FWD)
  else
    (s, stopCar)

/-- Source function `void loop()`: identical structure to the part_000 variant. -/
def loop (s : CarState) (i : TickInput) : CarState × List MotorOp :=
  if s.lap_stage = 2 then
    (s, stopCar)
  else if getDistance i.duration > 0 && getDistance i.duration < OBSTACLE_LIMIT then
    (s, performOvertake)
  else
    runLineLogic s i

end GarageDoor

/-!
Spec-side rule list for the line-follow controller (spec section 4.2): the
six documented rules, each with its matching predicate, evaluated first
match wins. These definitions follow the spec's words; the refinement
theorem for C1 compares them with the source-derived `runLineFollower` and
`runLineLogic`.
-/

/-- The six documented line-follow rules, in the spec's priority order. -/
inductive LineRule where
  | marker
  | center
  | right
  | left
  | looseCenter
  | lost
deriving DecidableEq

/-- Spec wording of each rule's matching predicate on the classified
pattern (onLeft, onMiddle, onRight): all three on-line; only middle
on-line; right on-line; left on-line; middle on-line (loose); no sensor
on-line. -/
def ruleMatches (r : LineRule) (onL onM onR : Bool) : Bool :=
  match r with
  | .marker => onL && onM && onR
  | .center => onM && !onL && !onR
  | .right => onR
  | .left => onL
  | .looseCenter => onM
  | .lost => !onL && !onM && !onR

/-- The documented priority order, highest first. -/
def priorityOrder : List LineRule :=
  [.marker, .center, .right, .left, .looseCenter, .lost]

/-- The first rule in the documented priority order whose predicate matches
the pattern (first match wins; `lost` is the default and matches exactly
the patterns no earlier rule matches). -/
def firstMatchingRule (onL onM onR : Bool) : LineRule :=
  ((priorityOrder.filter (fun r => ruleMatches r onL onM onR)).headD .lost)

namespace Part000

/-- The steering command the spec assigns to each rule, for the part_000
variant: `marker` defers to the lap-stage logic, `center`/`looseCenter`
drive straight at cruise speed, `right`/`left` pivot at correction speed,
`lost` stops. -/
def ruleAction (r : LineRule) (s : CarState) (i : TickInput) :
    CarState × List MotorOp :=
  match r with
  | .marker => lapStageLogic s i
  | .center => (s, moveCar SPEED_LINE_FWD SPEED_LINE_FWD)
  | .right => (s, turnRight SPEED_LINE_TURN)
  | .left => (s, turnLeft SPEED_LINE_TURN)
  | .looseCenter => (s, moveCar SPEED_LINE_FWD SPEED_LINE_FWD)
  | .lost => (s, stopCar)

end Part000

namespace GarageDoor

/-- The steering command the spec assigns to each rule, for the garage_door
variant. -/
def ruleAction (r : LineRule) (s : CarState) (i : TickInput) :
    CarState × List MotorOp :=
  match r with
  | .marker => lapStageLogic s i
  | .center => (s, moveCar SPEED_LINE_FWD SPEED_LINE_FWD)
  | .right => (s, turnRight SPEED_LINE_TURN)
  | .left => (s, turnLeft SPEED_LINE_TURN)
  | .looseCenter => (s, moveCar SPEED_LINE_FWD SPEED_LINE_FWD)
  | .lost => (s, stopCar)

end GarageDoor

/-!
Trace machinery for the lap-stage ordering claims: iterating a tick
function over a list of inputs, and counting the stage transitions a trace
performs.
-/

/-- Iterate a tick function over a list of inputs, keeping only the state. -/
def runTicks (tick : CarState → TickInput → CarState × List MotorOp) :
    CarState → List TickInput → CarState
  | s, [] => s
  | s, i :: rest => runTicks tick (tick s i).1 rest

/-- Number of ticks in a trace at which `lap_stage` moves from `a` to `b`. -/
def countTrans (tick : CarState → TickInput → CarState × List MotorOp)
    (a b : Nat) : CarState → List TickInput → Nat
  | _, [] => 0
  | s, i :: rest =>
      (if s.lap_stage = a ∧ ((tick s i).1).lap_stage = b then 1 else 0) +
      countTrans tick a b (tick s i).1 rest

/-- A tick function whose only stage moves are 0 to 1 and 1 to 2. -/
def StageStep (tick : CarState → TickInput → CarState × List MotorOp) : Prop :=
  ∀ s i, ((tick s i).1).lap_stage = s.lap_stage ∨
    (s.lap_stage = 0 ∧ ((tick s i).1).lap_stage = 1) ∨
    (s.lap_stage = 1 ∧ ((tick s i).1).lap_stage = 2)

/-- Concrete all-black tick input used by the closed witness instances:
marker pattern, no echo (distance sentinel), clock at 20000 ms. -/
def markerInput1 : TickInput := ⟨700, 700, 700, 0, 20000, 20000⟩

/-- Second witness tick input: marker pattern again at 40000 ms. -/
def markerInput2 : TickInput := ⟨700, 700, 700, 0, 40000, 40000⟩

/-- Concrete two-tick trace driving the lap-stage machine to FINISHED. -/
def markerTrace : List TickInput := [markerInput1, markerInput2]

/-!
Helper lemmas shared by the lap-stage claims.
-/

theorem part000_stageStep : StageStep Part000.loop := by
  intro s i
  unfold Part000.loop Part000.runLineFollower Part000.lapStageLogic
  split_ifs <;> simp_all

theorem garage_stageStep : StageStep GarageDoor.loop := by
  intro s i
  unfold GarageDoor.loop GarageDoor.runLineLogic GarageDoor.lapStageLogic
  split_ifs <;> simp_all

theorem runTicks_stage_mono (tick : CarState → TickInput → CarState × List MotorOp)
    (H : StageStep tick) :
    ∀ (l : List TickInput) (s : CarState),
      s.lap_stage ≤ (runTicks tick s l).lap_stage := by
  intro l
  induction l with
  | nil => intro s; simp [runTicks]
  | cons i rest ih =>
    intro s
    have hstep := H s i
    have htail := ih (tick s i).1
    simp only [runTicks]
    rcases hstep with h | ⟨h0, h1⟩ | ⟨h0, h1⟩ <;> omega

theorem runTicks_stage2_absorbing
    (tick : CarState → TickInput → CarState × List MotorOp)
    (H : StageStep tick) :
    ∀ (l : List TickInput) (s : CarState),
      s.lap_stage = 2 → (runTicks tick s l).lap_stage = 2 := by
  intro l
  induction l with
  | nil => intro s h; simpa [runTicks] using h
  | cons i rest ih =>
    intro s h
    simp only [runTicks]
    apply ih
    rcases H s i with h1 | ⟨h0, _⟩ | ⟨h0, _⟩ <;> omega

theorem countTrans01_eq (tick : CarState → TickInput → CarState × List MotorOp)
    (H : StageStep tick) :
    ∀ (l : List TickInput) (s : CarState),
      countTrans tick 0 1 s l =
        if s.lap_stage = 0 ∧ (runTicks tick s l).lap_stage ≠ 0 then 1 else 0 := by
  intro l
  induction l with
  | nil => intro s; simp [countTrans, runTicks]
  | cons i rest ih =>
    intro s
    simp only [countTrans, runTicks]
    rw [ih]
    have hmono := runTicks_stage_mono tick H rest (tick s i).1
    rcases H s i with h | ⟨h0, h1⟩ | ⟨h0, h1⟩ <;> split_ifs <;> omega

theorem countTrans12_eq (tick : CarState → TickInput → CarState × List MotorOp)
    (H : StageStep tick) :
    ∀ (l : List TickInput) (s : CarState),
      countTrans tick 1 2 s l =
        if (s.lap_stage = 0 ∨ s.lap_stage = 1) ∧
            (runTicks tick s l).lap_stage = 2 then 1 else 0 := by
  intro l
  induction l with
  | nil => intro s; simp only [countTrans, runTicks]; split_ifs <;> omega
  | cons i rest ih =>
    intro s
    simp only [countTrans, runTicks]
    rw [ih]
    have hmono := runTicks_stage_mono tick H rest (tick s i).1
    rcases H s i with h | ⟨h0, h1⟩ | ⟨h0, h1⟩
    · split_ifs <;> omega
    · split_ifs <;> omega
    · have habs := runTicks_stage2_absorbing tick H rest (tick s i).1 h1
      split_ifs <;> omega

/-!
Claim theorems.
-/

/-- C7: for every raw intensity reading v, the classifier returns true iff
low < v < high (low = 200, high = 1100); in particular it returns false at
exactly v = low and v = high, and at every value beyond either bound.
Stated for both source variants (their classifiers are identical). -/
theorem isBlack_strict_window :
    (∀ v : Int, Part000.isBlack v = true ↔
        Part000.THRESHOLD_LOW < v ∧ v < Part000.THRESHOLD_HIGH) ∧
    Part000.isBlack 200 = false ∧ Part000.isBlack 1100 = false ∧
    (∀ v : Int, v ≤ Part000.THRESHOLD_LOW → Part000.isBlack v = false) ∧
    (∀ v : Int, Part000.THRESHOLD_HIGH ≤ v → Part000.isBlack v = false) ∧
    (∀ v : Int, GarageDoor.isBlack v = true ↔
        GarageDoor.THRESHOLD_LOW < v ∧ v < GarageDoor.THRESHOLD_HIGH) ∧
    GarageDoor.isBlack 200 = false ∧ GarageDoor.isBlack 1100 = false := by
  refine ⟨?_, by decide, by decide, ?_, ?_, ?_, by decide, by decide⟩
  · intro v
    simp [Part000.isBlack]
  · intro v h
    simp only [Part000.THRESHOLD_LOW] at h
    simp [Part000.isBlack, Part000.THRESHOLD_LOW, Part000.THRESHOLD_HIGH]
    omega
  · intro v h
    simp only [Part000.THRESHOLD_HIGH] at h
    simp [Part000.isBlack, Part000.THRESHOLD_LOW, Part000.THRESHOLD_HIGH]
    omega
  · intro v
    simp [GarageDoor.isBlack]

/-- Witness for C7: the beyond-bound clauses applied at v = 150 and
v = 1200. -/
theorem isBlack_strict_window_witness :
    Part000.isBlack 150 = false ∧ Part000.isBlack 1200 = false :=
  ⟨isBlack_strict_window.2.2.2.1 150 (by decide),
   isBlack_strict_window.2.2.2.2.1 1200 (by decide)⟩

/-- C9 counterexample: the claim puts the raw intensity v = 200 (the low
threshold) inside the dead-band window and classifies it on-line; the
code's classifier uses a strict lower bound and classifies 200 off-line. -/
theorem isBlack_low_bound_counterexample :
    ¬ (Part000.isBlack 200 = true) := by decide

/-- C9 amended: the classifier's dead-band window is the open interval
(low, high): a raw intensity exactly equal to the low threshold (200) lies
outside the window and is classified off-line, exactly as a value equal to
the high threshold (1100) is. Stated for both variants. -/
theorem isBlack_open_window :
    Part000.isBlack 200 = false ∧ Part000.isBlack 1100 = false ∧
    GarageDoor.isBlack 200 = false ∧ GarageDoor.isBlack 1100 = false ∧
    (∀ v : Int, Part000.isBlack v = true ↔ (200 : Int) < v ∧ v < 1100) ∧
    (∀ v : Int, GarageDoor.isBlack v = true ↔ (200 : Int) < v ∧ v < 1100) := by
  refine ⟨by decide, by decide, by decide, by decide, ?_, ?_⟩
  · intro v
    simp [Part000.isBlack, Part000.THRESHOLD_LOW, Part000.THRESHOLD_HIGH]
  · intro v
    simp [GarageDoor.isBlack, GarageDoor.THRESHOLD_LOW, GarageDoor.THRESHOLD_HIGH]

/-- C2: in every non-terminal stage, when all three sensors classify
on-line but the elapsed time since the last timer reset is at most
MIN_LAP_TIME, the tick performs no stage transition, does not touch the
timer, and drives straight at cruise speed; for every clock value in that
window, in both variants. -/
theorem early_marker_is_noise :
    (∀ (s : CarState) (i : TickInput),
        s.lap_stage = 0 ∨ s.lap_stage = 1 →
        Part000.isBlack i.val_L = true → Part000.isBlack i.val_M = true →
        Part000.isBlack i.val_R = true →
        ulongSub i.now s.stage_start_time ≤ Part000.MIN_LAP_TIME →
        Part000.runLineFollower s i =
          (s, Part000.moveCar Part000.SPEED_LINE_FWD Part000.SPEED_LINE_FWD)) ∧
    (∀ (s : CarState) (i : TickInput),
        s.lap_stage = 0 ∨ s.lap_stage = 1 →
        GarageDoor.isBlack i.val_L = true → GarageDoor.isBlack i.val_M = true →
        GarageDoor.isBlack i.val_R = true →
        ulongSub i.now s.stage_start_time ≤ GarageDoor.MIN_LAP_TIME →
        GarageDoor.runLineLogic s i =
          (s, GarageDoor.moveCar GarageDoor.SPEED_LINE_FWD GarageDoor.SPEED_LINE_FWD)) := by
  constructor
  · intro s i _ hL hM hR hle
    unfold Part000.runLineFollower Part000.lapStageLogic
    rw [hL, hM, hR]
    simp only [Bool.and_self, if_true]
    rw [if_neg (by omega)]
  · intro s i _ hL hM hR hle
    unfold GarageDoor.runLineLogic GarageDoor.lapStageLogic
    rw [hL, hM, hR]
    simp only [Bool.and_self, if_true]
    rw [if_neg (by omega)]

/-- Witness for C2: stage OUTBOUND, all-dark reading, elapsed 5000 ms with
a 19500 ms suppression window. -/
theorem early_marker_is_noise_witness :
    Part000.runLineFollower ⟨0, 0⟩ ⟨700, 700, 700, 0, 5000, 5000⟩ =
      (⟨0, 0⟩, Part000.moveCar Part000.SPEED_LINE_FWD Part000.SPEED_LINE_FWD) ∧
    GarageDoor.runLineLogic ⟨0, 0⟩ ⟨700, 700, 700, 0, 5000, 5000⟩ =
      (⟨0, 0⟩, GarageDoor.moveCar GarageDoor.SPEED_LINE_FWD GarageDoor.SPEED_LINE_FWD) :=
  ⟨early_marker_is_noise.1 ⟨0, 0⟩ ⟨700, 700, 700, 0, 5000, 5000⟩ (Or.inl rfl)
      (by decide) (by decide) (by decide) (by decide),
   early_marker_is_noise.2 ⟨0, 0⟩ ⟨700, 700, 700, 0, 5000, 5000⟩ (Or.inl rfl)
      (by decide) (by decide) (by decide) (by decide)⟩

/-- C4: once lap_stage = 2 (FINISHED), every subsequent loop tick issues
only the stop command (both PWM magnitudes written zero, no other motor
write), and the state, stage included, is unchanged; in both variants. -/
theorem finished_is_absorbing :
    (∀ (s : CarState) (i : TickInput), s.lap_stage = 2 →
        Part000.loop s i = (s, Part000.stopCar) ∧
        ∀ op ∈ (Part000.loop s i).2,
          op = MotorOp.analogWritePWMA 0 ∨ op = MotorOp.analogWritePWMB 0) ∧
    (∀ (s : CarState) (i : TickInput), s.lap_stage = 2 →
        GarageDoor.loop s i = (s, GarageDoor.stopCar) ∧
        ∀ op ∈ (GarageDoor.loop s i).2,
          op = MotorOp.analogWritePWMA 0 ∨ op = MotorOp.analogWritePWMB 0) := by
  constructor
  · intro s i h
    have hloop : Part000.loop s i = (s, Part000.stopCar) := by
      unfold Part000.loop
      rw [if_pos h]
    refine ⟨hloop, ?_⟩
    rw [hloop]
    intro op hop
    simp [Part000.stopCar] at hop
    tauto
  · intro s i h
    have hloop : GarageDoor.loop s i = (s, GarageDoor.stopCar) := by
      unfold GarageDoor.loop
      rw [if_pos h]
    refine ⟨hloop, ?_⟩
    rw [hloop]
    intro op hop
    simp [GarageDoor.stopCar] at hop
    tauto

/-- Witness for C4: a FINISHED state ticked on an all-dark reading. -/
theorem finished_is_absorbing_witness :
    Part000.loop ⟨2, 0⟩ markerInput1 = (⟨2, 0⟩, Part000.stopCar) ∧
    GarageDoor.loop ⟨2, 0⟩ markerInput1 = (⟨2, 0⟩, GarageDoor.stopCar) :=
  ⟨(finished_is_absorbing.1 ⟨2, 0⟩ markerInput1 rfl).1,
   (finished_is_absorbing.2 ⟨2, 0⟩ markerInput1 rfl).1⟩

/-- C6: in stage OUTBOUND, an all-on-line pattern with elapsed time
strictly above MIN_LAP_TIME invokes the U-turn maneuver, resets the timer
to the millis() value sampled at the reset, and advances the stage to
RETURNING — in both variants, each with its own post-U-turn behavior
(part_000: blind forward creep inside `performUturn`; garage_door: stop,
5000 ms dwell, then a 300 ms creep after the reset). -/
theorem uturn_advances_to_returning :
    (∀ (s : CarState) (i : TickInput), s.lap_stage = 0 →
        Part000.isBlack i.val_L = true → Part000.isBlack i.val_M = true →
        Part000.isBlack i.val_R = true →
        ulongSub i.now s.stage_start_time > Part000.MIN_LAP_TIME →
        Part000.runLineFollower s i = (⟨1, i.now2⟩, Part000.performUturn)) ∧
    (∀ (s : CarState) (i : TickInput), s.lap_stage = 0 →
        GarageDoor.isBlack i.val_L = true → GarageDoor.isBlack i.val_M = true →
        GarageDoor.isBlack i.val_R = true →
        ulongSub i.now s.stage_start_time > GarageDoor.MIN_LAP_TIME →
        GarageDoor.runLineLogic s i =
          (⟨1, i.now2⟩,
            GarageDoor.performUturn ++ GarageDoor.stopCar ++
            [MotorOp.delayMs 5000] ++
            GarageDoor.moveCar GarageDoor.SPEED_LINE_FWD GarageDoor.SPEED_LINE_FWD ++
            [MotorOp.delayMs 300])) := by
  constructor
  · intro s i hst hL hM hR hgt
    unfold Part000.runLineFollower Part000.lapStageLogic
    rw [hL, hM, hR]
    simp only [Bool.and_self, if_true]
    rw [if_pos hgt, if_pos hst]
  · intro s i hst hL hM hR hgt
    unfold GarageDoor.runLineLogic GarageDoor.lapStageLogic
    rw [hL, hM, hR]
    simp only [Bool.and_self, if_true]
    rw [if_pos hgt, if_pos hst]

/-- Witness for C6: all-dark reading at 20000 ms elapsed, stage OUTBOUND,
for both variants. -/
theorem uturn_advances_to_returning_witness :
    Part000.runLineFollower ⟨0, 0⟩ markerInput1 =
      (⟨1, 20000⟩, Part000.performUturn) ∧
    GarageDoor.runLineLogic ⟨0, 0⟩ markerInput1 =
      (⟨1, 20000⟩,
        GarageDoor.performUturn ++ GarageDoor.stopCar ++
        [MotorOp.delayMs 5000] ++
        GarageDoor.moveCar GarageDoor.SPEED_LINE_FWD GarageDoor.SPEED_LINE_FWD ++
        [MotorOp.delayMs 300]) :=
  ⟨uturn_advances_to_returning.1 ⟨0, 0⟩ markerInput1 rfl
      (by decide) (by decide) (by decide) (by decide),
   uturn_advances_to_returning.2 ⟨0, 0⟩ markerInput1 rfl
      (by decide) (by decide) (by decide) (by decide)⟩

/-- C5: on any non-terminal tick whose distance reading is strictly
positive and strictly below OBSTACLE_LIMIT, the loop performs exactly the
fixed overtake sequence (stop, pause, right 90, side drive, left 90, pass
drive, left 90, side drive back, right 90, stop, pause) with the state
unchanged — the same sequence for every such distance; and on any
non-terminal tick where the obstacle guard fails, the loop is exactly the
line follower, so control returns to line following afterward. -/
theorem overtake_preempts_line_following :
    (∀ (s : CarState) (i : TickInput), s.lap_stage ≠ 2 →
        Part000.getDistance i.duration > 0 →
        Part000.getDistance i.duration < Part000.OBSTACLE_LIMIT →
        Part000.loop s i = (s, Part000.performOvertake)) ∧
    (∀ (s : CarState) (i : TickInput), s.lap_stage ≠ 2 →
        ¬(Part000.getDistance i.duration > 0 ∧
          Part000.getDistance i.duration < Part000.OBSTACLE_LIMIT) →
        Part000.loop s i = Part000.runLineFollower s i) := by
  constructor
  · intro s i hst hpos hlt
    unfold Part000.loop
    rw [if_neg hst, if_pos (by simp [hpos, hlt])]
  · intro s i hst hno
    unfold Part000.loop
    rw [if_neg hst, if_neg (by simpa using hno)]

/-- Witness for C5: an echo of 59 microseconds gives distance 1 cm, inside
the trigger window, and the overtake runs; a timed-out echo (sentinel 200)
falls through to the line follower. -/
theorem overtake_preempts_line_following_witness :
    Part000.loop ⟨0, 0⟩ ⟨700, 700, 700, 59, 20000, 20000⟩ =
      (⟨0, 0⟩, Part000.performOvertake) ∧
    Part000.loop ⟨0, 0⟩ markerInput1 =
      Part000.runLineFollower ⟨0, 0⟩ markerInput1 :=
  ⟨overtake_preempts_line_following.1 ⟨0, 0⟩ ⟨700, 700, 700, 59, 20000, 20000⟩
      (by decide) (by decide) (by decide),
   overtake_preempts_line_following.2 ⟨0, 0⟩ markerInput1
      (by decide) (by decide)⟩

/-- C8: when the ultrasonic echo times out (`pulseIn` returns 0),
`getDistance` returns the sentinel 200 cm, and a tick with that reading
never takes the obstacle branch: the loop is exactly the line follower. -/
theorem timeout_sentinel_no_obstacle :
    Part000.getDistance 0 = 200 ∧
    (∀ (s : CarState) (i : TickInput), s.lap_stage ≠ 2 → i.duration = 0 →
        Part000.loop s i = Part000.runLineFollower s i) := by
  refine ⟨by decide, ?_⟩
  intro s i hst hdur
  unfold Part000.loop
  rw [if_neg hst, if_neg (by simp [hdur, Part000.getDistance, Part000.OBSTACLE_LIMIT])]

/-- Witness for C8: a timed-out echo in stage OUTBOUND proceeds to line
following. -/
theorem timeout_sentinel_no_obstacle_witness :
    Part000.loop ⟨0, 0⟩ markerInput1 =
      Part000.runLineFollower ⟨0, 0⟩ markerInput1 :=
  timeout_sentinel_no_obstacle.2 ⟨0, 0⟩ markerInput1 (by decide) rfl

/-- C10: an echo duration between 1 and 58 microseconds truncates to a
distance of 0 cm, and since the loop's obstacle guard requires
`distance > 0`, such a tick never triggers the overtake and falls through
to line following, in both variants — an extremely close obstacle is
treated like no obstacle. -/
theorem close_echo_truncates_to_zero :
    (∀ d : Nat, 1 ≤ d → d ≤ 58 → Part000.getDistance d = 0) ∧
    (∀ (s : CarState) (i : TickInput), s.lap_stage ≠ 2 →
        1 ≤ i.duration → i.duration ≤ 58 →
        Part000.loop s i = Part000.runLineFollower s i ∧
        GarageDoor.loop s i = GarageDoor.runLineLogic s i) := by
  have hdist : ∀ d : Nat, 1 ≤ d → d ≤ 58 → (d * 34) / 2000 = 0 := by
    intro d h1 h58
    exact Nat.div_eq_of_lt (by omega)
  refine ⟨?_, ?_⟩
  · intro d h1 h58
    unfold Part000.getDistance
    rw [if_neg (by omega), hdist d h1 h58]
    rfl
  · intro s i hst h1 h58
    constructor
    · unfold Part000.loop
      rw [if_neg hst, if_neg ?_]
      unfold Part000.getDistance
      rw [if_neg (by omega), hdist i.duration h1 h58]
      decide
    · unfold GarageDoor.loop
      rw [if_neg hst, if_neg ?_]
      unfold GarageDoor.getDistance
      rw [if_neg (by omega), hdist i.duration h1 h58]
      decide

/-- Witness for C10: a 30 microsecond echo (obstacle well under 1 cm)
gives distance 0 and the tick runs the line follower in both variants. -/
theorem close_echo_truncates_to_zero_witness :
    Part000.getDistance 30 = 0 ∧
    Part000.loop ⟨0, 0⟩ ⟨700, 700, 700, 30, 20000, 20000⟩ =
      Part000.runLineFollower ⟨0, 0⟩ ⟨700, 700, 700, 30, 20000, 20000⟩ :=
  ⟨close_echo_truncates_to_zero.1 30 (by decide) (by decide),
   (close_echo_truncates_to_zero.2 ⟨0, 0⟩ ⟨700, 700, 700, 30, 20000, 20000⟩
      (by decide) (by decide) (by decide)).1⟩

/-- C1: for every classified sensor pattern, the line-follow controller's
result is exactly the action of the first matching rule in the documented
priority order (marker defers to lap-stage logic, only-middle straight,
right pivot, left pivot, loose-middle straight, none stop), so no
lower-priority rule's action is ever issued when a higher-priority rule
matches; in both variants. -/
theorem line_follow_first_match :
    (∀ (s : CarState) (i : TickInput),
        Part000.runLineFollower s i =
          Part000.ruleAction
            (firstMatchingRule (Part000.isBlack i.val_L) (Part000.isBlack i.val_M)
              (Part000.isBlack i.val_R)) s i) ∧
    (∀ (s : CarState) (i : TickInput),
        GarageDoor.runLineLogic s i =
          GarageDoor.ruleAction
            (firstMatchingRule (GarageDoor.isBlack i.val_L) (GarageDoor.isBlack i.val_M)
              (GarageDoor.isBlack i.val_R)) s i) := by
  constructor
  · intro s i
    cases hL : Part000.isBlack i.val_L <;> cases hM : Part000.isBlack i.val_M <;>
      cases hR : Part000.isBlack i.val_R <;>
      simp [Part000.runLineFollower, Part000.ruleAction, firstMatchingRule,
        priorityOrder, ruleMatches, hL, hM, hR]
  · intro s i
    cases hL : GarageDoor.isBlack i.val_L <;> cases hM : GarageDoor.isBlack i.val_M <;>
      cases hR : GarageDoor.isBlack i.val_R <;>
      simp [GarageDoor.runLineLogic, GarageDoor.ruleAction, firstMatchingRule,
        priorityOrder, ruleMatches, hL, hM, hR]

/-- C3: starting from stage OUTBOUND, each tick moves the stage by at most
one step and only forward (never backwards, never skipping RETURNING), and
any run of ticks that ends in FINISHED performs the OUTBOUND-to-RETURNING
transition exactly once and the RETURNING-to-FINISHED transition exactly
once; moreover a RETURNING-to-FINISHED transition never outnumbers the
OUTBOUND-to-RETURNING one. In both variants. -/
theorem lap_stage_ordering :
    StageStep Part000.loop ∧ StageStep GarageDoor.loop ∧
    (∀ (l : List TickInput) (s : CarState),
        s.lap_stage ≤ (runTicks Part000.loop s l).lap_stage ∧
        s.lap_stage ≤ (runTicks GarageDoor.loop s l).lap_stage) ∧
    (∀ (l : List TickInput) (t0 : Nat),
        countTrans Part000.loop 0 1 ⟨0, t0⟩ l ≤ 1 ∧
        countTrans Part000.loop 1 2 ⟨0, t0⟩ l ≤ 1 ∧
        countTrans Part000.loop 1 2 ⟨0, t0⟩ l ≤ countTrans Part000.loop 0 1 ⟨0, t0⟩ l ∧
        ((runTicks Part000.loop ⟨0, t0⟩ l).lap_stage = 2 →
          countTrans Part000.loop 0 1 ⟨0, t0⟩ l = 1 ∧
          countTrans Part000.loop 1 2 ⟨0, t0⟩ l = 1)) ∧
    (∀ (l : List TickInput) (t0 : Nat),
        countTrans GarageDoor.loop 0 1 ⟨0, t0⟩ l ≤ 1 ∧
        countTrans GarageDoor.loop 1 2 ⟨0, t0⟩ l ≤ 1 ∧
        countTrans GarageDoor.loop 1 2 ⟨0, t0⟩ l ≤ countTrans GarageDoor.loop 0 1 ⟨0, t0⟩ l ∧
        ((runTicks GarageDoor.loop ⟨0, t0⟩ l).lap_stage = 2 →
          countTrans GarageDoor.loop 0 1 ⟨0, t0⟩ l = 1 ∧
          countTrans GarageDoor.loop 1 2 ⟨0, t0⟩ l = 1)) := by
  refine ⟨part000_stageStep, garage_stageStep, ?_, ?_, ?_⟩
  · intro l s
    exact ⟨runTicks_stage_mono Part000.loop part000_stageStep l s,
           runTicks_stage_mono GarageDoor.loop garage_stageStep l s⟩
  · intro l t0
    rw [countTrans01_eq Part000.loop part000_stageStep l,
        countTrans12_eq Part000.loop part000_stageStep l]
    dsimp only
    split_ifs <;> omega
  · intro l t0
    rw [countTrans01_eq GarageDoor.loop garage_stageStep l,
        countTrans12_eq GarageDoor.loop garage_stageStep l]
    dsimp only
    split_ifs <;> omega

/-- Witness for C3: a concrete two-tick trace (two valid marker events,
20000 ms apart) drives both variants from OUTBOUND to FINISHED with each
transition counted exactly once. -/
theorem lap_stage_ordering_witness :
    countTrans Part000.loop 0 1 ⟨0, 0⟩ markerTrace = 1 ∧
    countTrans Part000.loop 1 2 ⟨0, 0⟩ markerTrace = 1 ∧
    countTrans GarageDoor.loop 0 1 ⟨0, 0⟩ markerTrace = 1 ∧
    countTrans GarageDoor.loop 1 2 ⟨0, 0⟩ markerTrace = 1 :=
  ⟨((lap_stage_ordering.2.2.2.1 markerTrace 0).2.2.2 (by decide)).1,
   ((lap_stage_ordering.2.2.2.1 markerTrace 0).2.2.2 (by decide)).2,
   ((lap_stage_ordering.2.2.2.2 markerTrace 0).2.2.2 (by decide)).1,
   ((lap_stage_ordering.2.2.2.2 markerTrace 0).2.2.2 (by decide)).2⟩
